import Mathlib

/-!
Shallow embedding of the job-dispatch and video/job state-machine core of
the `embedvideos` service.

Sources embedded:
- `src/database/mongodb.ts` : the `Database` class (record store adapter) —
  `VideoMetadata`, `EncodingJob`, `updateVideoStatus`, `getVideo`,
  `updateJobStatus`, `incrementJobAttempt`, `getJob`, `getPendingJobs`.
- `src/dispatcher/jobDispatcher.ts` : `JobDispatcher.getNextEncoder`,
  `JobDispatcher.dispatchJob`, and the failure handling inside
  `JobDispatcher.processJobs`.
- `src/index.ts` : the `POST /webhook` handler, the
  `POST /video/:permlink/thumbnail` handler, and the `onUploadFinish`
  call-site shapes of `updateVideoStatus` (markProcessing / markFailed).
- `src/config/config.ts` : `EncoderConfig`.

Modelling conventions: `Date` values are `Nat` timestamps threaded as a `now`
parameter; MongoDB collections are lists of records; `updateOne` updates the
first record matching the filter and is a silent no-op when nothing matches;
`$set { status, updatedAt, ...additionalData }` is a record update applied
via a patch function applied after setting `status` and `updatedAt` (matching
JS spread-override order); outbound `fetch` to an encoder is an oracle
function returning a `FetchOutcome`.
-/

namespace EmbedVideos

/-- Video status enum (`VideoStatus` in mongodb.ts). -/
inductive VideoStatus where
  | uploading
  | processing
  | published
  | failed
  | deleted
deriving DecidableEq, Repr

/-- Encoding job status enum (`JobStatus` in mongodb.ts). -/
inductive JobStatus where
  | pending
  | encoding
  | completed
  | failed
deriving DecidableEq, Repr

/-- `VideoMetadata` record (mongodb.ts lines 5–20). -/
structure VideoMetadata where
  owner : String
  permlink : String
  frontend_app : String
  status : VideoStatus
  input_cid : Option String
  manifest_cid : Option String
  thumbnail_url : Option String
  short : Bool
  duration : Option Nat
  size : Option Nat
  encodingProgress : Nat
  originalFilename : Option String
  createdAt : Nat
  updatedAt : Nat
deriving DecidableEq, Repr

/-- `EncodingJob` record (mongodb.ts lines 57–69). -/
structure EncodingJob where
  owner : String
  permlink : String
  status : JobStatus
  assignedWorker : Option String
  encoderJobId : Option String
  assignedAt : Option Nat
  attemptCount : Nat
  lastError : Option String
  webhookReceivedAt : Option Nat
  createdAt : Nat
  updatedAt : Nat
deriving DecidableEq, Repr

/-- The durable store state: the videos collection and the jobs collection. -/
structure DbState where
  videos : List VideoMetadata
  jobs : List EncodingJob
deriving DecidableEq, Repr

/-- MongoDB `updateOne` semantics over a list collection: update the first
record matching the filter predicate; no-op when nothing matches. -/
def updateFirst {α : Type} (p : α → Bool) (f : α → α) : List α → List α
  | [] => []
  | x :: xs => if p x then f x :: xs else x :: updateFirst p f xs

/-- `Database.getVideo` (mongodb.ts 108–113): `findOne({ permlink })`. -/
def getVideo (db : DbState) (permlink : String) : Option VideoMetadata :=
  db.videos.find? (fun v => v.permlink == permlink)

/-- `Database.updateVideoStatus` (mongodb.ts 94–106):
`updateOne({ permlink }, { $set: { status, updatedAt: new Date(), ...additionalData } })`.
The `patch` function embeds `...additionalData`; because the JS spread comes
after `status`/`updatedAt`, the patch is applied last. -/
def updateVideoStatus (db : DbState) (permlink : String) (status : VideoStatus)
    (patch : VideoMetadata → VideoMetadata) (now : Nat) : DbState :=
  { db with
    videos := updateFirst (fun v => v.permlink == permlink)
      (fun v => patch { v with status := status, updatedAt := now }) db.videos }

/-- `Database.getJob` (mongodb.ts 191–197): `findOne({ owner, permlink })`. -/
def getJob (db : DbState) (owner permlink : String) : Option EncodingJob :=
  db.jobs.find? (fun j => j.owner == owner && j.permlink == permlink)

/-- `Database.updateJobStatus` (mongodb.ts 211–225):
`updateOne({ owner, permlink }, { $set: { status, updatedAt: new Date(), ...additionalData } })`. -/
def updateJobStatus (db : DbState) (owner permlink : String) (status : JobStatus)
    (patch : EncodingJob → EncodingJob) (now : Nat) : DbState :=
  { db with
    jobs := updateFirst (fun j => j.owner == owner && j.permlink == permlink)
      (fun j => patch { j with status := status, updatedAt := now }) db.jobs }

/-- `Database.incrementJobAttempt` (mongodb.ts 227–236):
`updateOne({ owner, permlink }, { $inc: { attemptCount: 1 }, $set: { updatedAt: new Date() } })`. -/
def incrementJobAttempt (db : DbState) (owner permlink : String) (now : Nat) : DbState :=
  { db with
    jobs := updateFirst (fun j => j.owner == owner && j.permlink == permlink)
      (fun j => { j with attemptCount := j.attemptCount + 1, updatedAt := now }) db.jobs }

/-- Insertion sort by ascending `createdAt`, embedding the MongoDB
`sort({ createdAt: 1 })` used by `getPendingJobs`. -/
def insertByCreatedAt (j : EncodingJob) : List EncodingJob → List EncodingJob
  | [] => [j]
  | x :: xs =>
    if j.createdAt ≤ x.createdAt then j :: x :: xs else x :: insertByCreatedAt j xs

def sortByCreatedAt : List EncodingJob → List EncodingJob
  | [] => []
  | x :: xs => insertByCreatedAt x (sortByCreatedAt xs)

/-- `Database.getPendingJobs` (mongodb.ts 199–209):
`find({ status: 'pending' }).sort({ createdAt: 1 }).limit(limit)`. -/
def getPendingJobs (db : DbState) (limit : Nat) : List EncodingJob :=
  (sortByCreatedAt (db.jobs.filter (fun j => j.status == JobStatus.pending))).take limit

/-- `EncoderConfig` (config.ts 1–6). -/
structure EncoderConfig where
  name : String
  url : String
  apiKey : String
  enabled : Bool
deriving DecidableEq, Repr

/-- The slice of `Config` (config.ts) the dispatcher reads. -/
structure DispatcherConfig where
  encoders : List EncoderConfig
  webhookUrl : String
  webhookApiKey : String
deriving DecidableEq, Repr

/-- `JobDispatcher.getNextEncoder` (jobDispatcher.ts 31–42): filter the
enabled encoders; throw when none; otherwise read
`enabledEncoders[currentEncoderIndex % enabledEncoders.length]` and advance
the cursor by one. Returns the selected encoder with the new cursor value. -/
def getNextEncoder (encoders : List EncoderConfig) (currentEncoderIndex : Nat) :
    Except String (EncoderConfig × Nat) :=
  let enabledEncoders := encoders.filter (fun e => e.enabled)
  if h : enabledEncoders.length = 0 then
    Except.error "No enabled encoders available"
  else
    Except.ok
      (enabledEncoders.get
        ⟨currentEncoderIndex % enabledEncoders.length,
          Nat.mod_lt _ (Nat.pos_of_ne_zero h)⟩,
       currentEncoderIndex + 1)

/-- The JSON payload `encoderRequest` built in `JobDispatcher.dispatchJob`
(jobDispatcher.ts 129–138). -/
structure EncoderRequest where
  owner : String
  permlink : String
  input_cid : String
  short : Bool
  webhook_url : String
  api_key : String
  frontend_app : String
  originalFilename : Option String
deriving DecidableEq, Repr

/-- The hard-coded gateway prefix in `dispatchJob` (jobDispatcher.ts 128). -/
def ipfsGateway : String := "https://ipfs.3speak.tv/ipfs"

/-- Outcome of the outbound `fetch` to `{encoder.url}/encode`
(jobDispatcher.ts 146–160): a network-level rejection, a non-2xx response,
or a 2xx response whose JSON body yields a worker job id. -/
inductive FetchOutcome where
  | networkError (message : String)
  | httpError (status : Nat) (body : String)
  | success (job_id : String)
deriving DecidableEq, Repr

/-- An environment oracle standing for the network: what the `fetch` in
`dispatchJob` returns for a given encoder and payload. -/
def FetchOracle : Type := EncoderConfig → EncoderRequest → FetchOutcome

/-- `JobDispatcher.dispatchJob` (jobDispatcher.ts 116–169). Returns the
store state on success or the thrown error message, paired with the rotation
cursor as left by the call: the cursor was already advanced inside
`getNextEncoder`, so it stays advanced even when the subsequent `fetch`
throws. -/
def dispatchJob (db : DbState) (cfg : DispatcherConfig) (cursor : Nat)
    (fetch : FetchOracle) (now : Nat) (owner permlink : String) :
    Except String DbState × Nat :=
  match getVideo db permlink with
  | none => (Except.error ("Video not found: " ++ permlink), cursor)
  | some video =>
    match video.input_cid with
    | none => (Except.error ("Video has no input_cid: " ++ permlink), cursor)
    | some cid =>
      let encoderRequest : EncoderRequest :=
        { owner := owner
          permlink := permlink
          input_cid := ipfsGateway ++ "/" ++ cid
          short := video.short
          webhook_url := cfg.webhookUrl
          api_key := cfg.webhookApiKey
          frontend_app := video.frontend_app
          originalFilename := video.originalFilename }
      match getNextEncoder cfg.encoders cursor with
      | Except.error e => (Except.error e, cursor)
      | Except.ok (encoder, cursor') =>
        match fetch encoder encoderRequest with
        | FetchOutcome.networkError msg => (Except.error msg, cursor')
        | FetchOutcome.httpError st body =>
          (Except.error ("Encoder API error: " ++ toString st ++ " - " ++ body), cursor')
        | FetchOutcome.success job_id =>
          (Except.ok (updateJobStatus db owner permlink JobStatus.encoding
              (fun j => { j with
                encoderJobId := some job_id
                assignedWorker := some encoder.name
                assignedAt := some now }) now),
           cursor')

/-- The `catch` block of the per-job loop in `JobDispatcher.processJobs`
(jobDispatcher.ts 89–106): increment `attemptCount`, put the job back to
`pending` with `lastError`, and — when the in-memory snapshot's
pre-increment `attemptCount` was already ≥ 3 — overwrite the job as
`failed` with a max-attempts `lastError` and mark the video `failed`. -/
def handleDispatchFailure (db : DbState) (job : EncodingJob) (errMsg : String)
    (now : Nat) : DbState :=
  let db1 := incrementJobAttempt db job.owner job.permlink now
  let db2 := updateJobStatus db1 job.owner job.permlink JobStatus.pending
    (fun j => { j with lastError := some errMsg }) now
  if job.attemptCount ≥ 3 then
    let db3 := updateJobStatus db2 job.owner job.permlink JobStatus.failed
      (fun j => { j with lastError := some ("Max attempts exceeded: " ++ errMsg) }) now
    updateVideoStatus db3 job.permlink VideoStatus.failed (fun v => v) now
  else
    db2

/-- One iteration of the `for` loop in `processJobs` (jobDispatcher.ts
86–107): try `dispatchJob`; on a thrown error run the failure handling. -/
def processOneJob (db : DbState) (cfg : DispatcherConfig) (cursor : Nat)
    (fetch : FetchOracle) (now : Nat) (job : EncodingJob) : DbState × Nat :=
  match dispatchJob db cfg cursor fetch now job.owner job.permlink with
  | (Except.ok db', cursor') => (db', cursor')
  | (Except.error msg, cursor') => (handleDispatchFailure db job msg now, cursor')

/-- `JobDispatcher.processJobs` (jobDispatcher.ts 76–111): fetch up to 5
pending jobs (oldest first) and dispatch each in turn. The in-memory job
snapshots come from the single `getPendingJobs` read at the start. -/
def processJobs (db : DbState) (cfg : DispatcherConfig) (cursor : Nat)
    (fetch : FetchOracle) (now : Nat) : DbState × Nat :=
  (getPendingJobs db 5).foldl
    (fun acc job => processOneJob acc.1 cfg acc.2 fetch now job) (db, cursor)

/-- The webhook request body destructured in `POST /webhook`
(index.ts 194–206); fields the handler never reads are omitted. -/
structure WebhookPayload where
  owner : String
  permlink : String
  status : String
  manifest_cid : Option String
  error : Option String
deriving DecidableEq, Repr

/-- Observable result of the `POST /webhook` handler. -/
inductive WebhookResult where
  | unauthorized
  | processed (message : String)
  | unknownStatus
deriving DecidableEq, Repr

/-- JS `encoderError || 'Encoding failed'` (index.ts 233): `undefined` and
the empty string are both falsy. -/
def lastErrorOrDefault (encoderError : Option String) : String :=
  match encoderError with
  | none => "Encoding failed"
  | some e => if e = "" then "Encoding failed" else e

/-- `POST /webhook` (index.ts 185–246): compare the `x-api-key` header to
`config.webhookApiKey` before touching the body; on `complete` mark the
video `published` (manifest_cid, encodingProgress 100) and the job
`completed` (webhookReceivedAt now); on `failed` mark the video `failed`
(encodingProgress 0) and the job `failed` (webhookReceivedAt, lastError);
any other status is rejected without touching the store. -/
def handleWebhook (db : DbState) (webhookApiKey : String)
    (apiKeyHeader : Option String) (body : WebhookPayload) (now : Nat) :
    WebhookResult × DbState :=
  if apiKeyHeader ≠ some webhookApiKey then
    (WebhookResult.unauthorized, db)
  else if body.status = "complete" then
    let db1 := updateVideoStatus db body.permlink VideoStatus.published
      (fun v => { v with manifest_cid := body.manifest_cid, encodingProgress := 100 }) now
    let db2 := updateJobStatus db1 body.owner body.permlink JobStatus.completed
      (fun j => { j with webhookReceivedAt := some now }) now
    (WebhookResult.processed "Webhook processed successfully", db2)
  else if body.status = "failed" then
    let db1 := updateVideoStatus db body.permlink VideoStatus.failed
      (fun v => { v with encodingProgress := 0 }) now
    let db2 := updateJobStatus db1 body.owner body.permlink JobStatus.failed
      (fun j => { j with
        webhookReceivedAt := some now
        lastError := some (lastErrorOrDefault body.error) }) now
    (WebhookResult.processed "Webhook processed (failure recorded)", db2)
  else
    (WebhookResult.unknownStatus, db)

/-- Observable result of `POST /video/:permlink/thumbnail`. -/
inductive ThumbnailResult where
  | badRequest
  | notFound
  | success (thumbnail_url : String)
deriving DecidableEq, Repr

/-- `POST /video/:permlink/thumbnail` (index.ts 266–292): require a truthy
`thumbnail_url`, 404 when the video is absent, otherwise
`updateVideoStatus(permlink, video.status, { thumbnail_url })` — the current
status is rewritten unchanged and only the thumbnail (and `updatedAt`) move. -/
def handleThumbnailUpdate (db : DbState) (permlink : String)
    (thumbnail_url : Option String) (now : Nat) : ThumbnailResult × DbState :=
  match thumbnail_url with
  | none => (ThumbnailResult.badRequest, db)
  | some url =>
    if url = "" then (ThumbnailResult.badRequest, db)
    else
      match getVideo db permlink with
      | none => (ThumbnailResult.notFound, db)
      | some video =>
        (ThumbnailResult.success url,
         updateVideoStatus db permlink video.status
           (fun v => { v with thumbnail_url := some url }) now)

/-- The video transition performed by `onUploadFinish` after a successful
pin (index.ts 132–136): the concrete `updateVideoStatus` call realising the
spec's `markProcessing`. -/
def markProcessing (db : DbState) (permlink : String) (size : Option Nat)
    (input_cid : String) (now : Nat) : DbState :=
  updateVideoStatus db permlink VideoStatus.processing
    (fun v => { v with
      size := size
      input_cid := some input_cid
      encodingProgress := 0 }) now

/-- The video transition performed by the webhook `failed` branch
(index.ts 226–228) and the `onUploadFinish` error path (index.ts 164–166):
the concrete `updateVideoStatus` call realising the spec's `markFailed`. -/
def markFailed (db : DbState) (permlink : String) (now : Nat) : DbState :=
  updateVideoStatus db permlink VideoStatus.failed
    (fun v => { v with encodingProgress := 0 }) now

/-- Store snapshot for the C1 and C3 scenarios: one video in `processing`
with a pinned input and one pending job for it. -/
def c1Video : VideoMetadata :=
  { owner := "alice", permlink := "ab12cd34", frontend_app := "app",
    status := VideoStatus.processing, input_cid := some "Qm123",
    manifest_cid := none, thumbnail_url := none, short := false,
    duration := none, size := some 10, encodingProgress := 0,
    originalFilename := none, createdAt := 0, updatedAt := 0 }

def c1Job : EncodingJob :=
  { owner := "alice", permlink := "ab12cd34", status := JobStatus.pending,
    assignedWorker := none, encoderJobId := none, assignedAt := none,
    attemptCount := 3, lastError := none, webhookReceivedAt := none,
    createdAt := 0, updatedAt := 0 }

def c1Db : DbState := { videos := [c1Video], jobs := [c1Job] }

def c3Job : EncodingJob := { c1Job with attemptCount := 1 }

def c3Db : DbState := { videos := [c1Video], jobs := [c3Job] }

/-- A run of consecutive worker selections: iterate `getNextEncoder` from a
starting cursor, threading the advanced cursor, collecting the selected
encoders in dispatch order. Dispatch index i of a run of M consecutive
dispatches performs the (i+1)-st selection. A fresh `JobDispatcher` starts
with `currentEncoderIndex = 0` (jobDispatcher.ts 21). -/
def runDispatches (encoders : List EncoderConfig) (cursor : Nat) :
    Nat → List EncoderConfig × Nat
  | 0 => ([], cursor)
  | n + 1 =>
    match getNextEncoder encoders cursor with
    | Except.error _ => ([], cursor)
    | Except.ok (e, cursor') =>
      let r := runDispatches encoders cursor' n
      (e :: r.1, r.2)

/-- Concrete encoder list for the C2 witness: two enabled workers and a
disabled one. -/
def c2Encoders : List EncoderConfig :=
  [{ name := "w1", url := "http://w1", apiKey := "k1", enabled := true },
   { name := "w2", url := "http://w2", apiKey := "k2", enabled := true },
   { name := "w3", url := "http://w3", apiKey := "k3", enabled := false }]

/-- C4 scenario (spec end-to-end scenario B): a single disabled encoder, so
the enabled-worker rotation is empty. -/
def c4Cfg : DispatcherConfig :=
  { encoders := [{ name := "w1", url := "http://w1", apiKey := "k1", enabled := false }],
    webhookUrl := "http://hook", webhookApiKey := "s" }

def c4Job : EncodingJob := { c1Job with attemptCount := 0 }

def c4Db : DbState := { videos := [c1Video], jobs := [c4Job] }

/-- The network oracle for the C4 scenario; it is never consulted because
worker selection already fails. -/
def c4Fetch : FetchOracle := fun _ _ => FetchOutcome.networkError "unreachable"

/-- One poll cycle of the C4 scenario. -/
def c4Poll (s : DbState × Nat) (now : Nat) : DbState × Nat :=
  processJobs s.1 c4Cfg s.2 c4Fetch now

def c4AfterThree : DbState × Nat := c4Poll (c4Poll (c4Poll (c4Db, 0) 1) 2) 3

def c4After : DbState × Nat := c4Poll c4AfterThree 4

/-- C5 scenario: a job in `encoding` awaiting its webhook, and the
corresponding `complete` report. -/
def c5Job : EncodingJob :=
  { c1Job with
    status := JobStatus.encoding, attemptCount := 0,
    assignedWorker := some "w1", encoderJobId := some "job-1" }

def c5Db : DbState := { videos := [c1Video], jobs := [c5Job] }

def c5Body : WebhookPayload :=
  { owner := "alice", permlink := "ab12cd34", status := "complete",
    manifest_cid := some "Qm456", error := none }

/-- C7 counterexample input: a video whose status is `published`, not
`uploading`. -/
def c7Video : VideoMetadata := { c1Video with permlink := "p7", status := VideoStatus.published }

def c7Db : DbState := { videos := [c7Video], jobs := [] }

/-- C9 counterexample input: a soft-deleted video with no thumbnail. -/
def c9Video : VideoMetadata := { c1Video with permlink := "p9", status := VideoStatus.deleted }

def c9Db : DbState := { videos := [c9Video], jobs := [] }


/-! ### Store lemmas -/

theorem find?_updateFirst {α : Type} (p : α → Bool) (f : α → α)
    (hf : ∀ x, p x = true → p (f x) = true) :
    ∀ l : List α, (updateFirst p f l).find? p = (l.find? p).map f := by
  intro l
  induction l with
  | nil => rfl
  | cons x xs ih =>
    cases hx : p x with
    | true =>
      simp [updateFirst, hx, hf x hx, List.find?_cons_of_pos]
    | false =>
      simp [updateFirst, hx, List.find?_cons_of_neg, ih]

theorem updateFirst_of_find?_none {α : Type} (p : α → Bool) (f : α → α) :
    ∀ l : List α, l.find? p = none → updateFirst p f l = l := by
  intro l
  induction l with
  | nil => intro _; rfl
  | cons x xs ih =>
    intro h
    cases hx : p x with
    | true => simp [List.find?_cons_of_pos, hx] at h
    | false =>
      rw [List.find?_cons_of_neg _ (by simp [hx])] at h
      simp [updateFirst, hx, ih h]

theorem updateFirst_updateFirst {α : Type} (p : α → Bool) (f g : α → α)
    (hf : ∀ x, p x = true → p (f x) = true) :
    ∀ l : List α, updateFirst p g (updateFirst p f l) = updateFirst p (fun x => g (f x)) l := by
  intro l
  induction l with
  | nil => rfl
  | cons x xs ih =>
    cases hx : p x with
    | true => simp [updateFirst, hx, hf x hx]
    | false => simp [updateFirst, hx, ih]

theorem getVideo_updateVideoStatus_self (db : DbState) (p : String)
    (st : VideoStatus) (f : VideoMetadata → VideoMetadata) (now : Nat)
    (hf : ∀ v, (f v).permlink = v.permlink) :
    getVideo (updateVideoStatus db p st f now) p =
      (getVideo db p).map (fun v => f { v with status := st, updatedAt := now }) := by
  unfold getVideo updateVideoStatus
  exact find?_updateFirst _ _ (fun v hv => by rw [hf]; exact hv) db.videos

theorem getJob_updateJobStatus_self (db : DbState) (o p : String)
    (st : JobStatus) (f : EncodingJob → EncodingJob) (now : Nat)
    (hf : ∀ j, (f j).owner = j.owner ∧ (f j).permlink = j.permlink) :
    getJob (updateJobStatus db o p st f now) o p =
      (getJob db o p).map (fun j => f { j with status := st, updatedAt := now }) := by
  unfold getJob updateJobStatus
  refine find?_updateFirst _ _ (fun j hj => ?_) db.jobs
  rw [(hf _).1, (hf _).2]
  exact hj

theorem getJob_incrementJobAttempt_self (db : DbState) (o p : String) (now : Nat) :
    getJob (incrementJobAttempt db o p now) o p =
      (getJob db o p).map (fun j => { j with attemptCount := j.attemptCount + 1, updatedAt := now }) := by
  unfold getJob incrementJobAttempt
  exact find?_updateFirst (fun j => j.owner == o && j.permlink == p)
    (fun j => { j with attemptCount := j.attemptCount + 1, updatedAt := now })
    (fun j hj => hj) db.jobs

theorem jobs_updateVideoStatus (db : DbState) (p : String) (st : VideoStatus)
    (f : VideoMetadata → VideoMetadata) (now : Nat) :
    (updateVideoStatus db p st f now).jobs = db.jobs := rfl

theorem videos_updateJobStatus (db : DbState) (o p : String) (st : JobStatus)
    (f : EncodingJob → EncodingJob) (now : Nat) :
    (updateJobStatus db o p st f now).videos = db.videos := rfl

theorem videos_incrementJobAttempt (db : DbState) (o p : String) (now : Nat) :
    (incrementJobAttempt db o p now).videos = db.videos := rfl

theorem getVideo_updateJobStatus (db : DbState) (o p : String) (st : JobStatus)
    (f : EncodingJob → EncodingJob) (now : Nat) (q : String) :
    getVideo (updateJobStatus db o p st f now) q = getVideo db q := rfl

theorem getVideo_incrementJobAttempt (db : DbState) (o p : String) (now : Nat)
    (q : String) :
    getVideo (incrementJobAttempt db o p now) q = getVideo db q := rfl

theorem getJob_updateVideoStatus (db : DbState) (p : String) (st : VideoStatus)
    (f : VideoMetadata → VideoMetadata) (now : Nat) (o q : String) :
    getJob (updateVideoStatus db p st f now) o q = getJob db o q := rfl

/-! ### Claims -/

/-- C10: every video status update (`updateVideoStatus`, hence
`markProcessing`, `markPublished`, `markFailed` and the webhook's video
transitions, all of which are `updateVideoStatus` instances) applied to a
permlink with no matching Video record completes successfully as a no-op:
the operation is total (it cannot raise) and returns the store unchanged. -/
theorem updateVideoStatus_missing_noop (db : DbState) (p : String)
    (st : VideoStatus) (f : VideoMetadata → VideoMetadata) (now : Nat)
    (h : getVideo db p = none) :
    updateVideoStatus db p st f now = db := by
  unfold updateVideoStatus
  rw [updateFirst_of_find?_none _ _ db.videos h]

/-- Witness for C10 at a concrete store holding one unrelated video. -/
theorem updateVideoStatus_missing_noop_witness :
    updateVideoStatus
      { videos := [{ owner := "alice", permlink := "zzzzzzzz",
                     frontend_app := "app", status := VideoStatus.uploading,
                     input_cid := none, manifest_cid := none,
                     thumbnail_url := none, short := false, duration := none,
                     size := none, encodingProgress := 0,
                     originalFilename := none, createdAt := 0, updatedAt := 0 }],
        jobs := [] }
      "ab12cd34" VideoStatus.failed (fun v => v) 9 =
      { videos := [{ owner := "alice", permlink := "zzzzzzzz",
                     frontend_app := "app", status := VideoStatus.uploading,
                     input_cid := none, manifest_cid := none,
                     thumbnail_url := none, short := false, duration := none,
                     size := none, encodingProgress := 0,
                     originalFilename := none, createdAt := 0, updatedAt := 0 }],
        jobs := [] } :=
  updateVideoStatus_missing_noop _ _ _ _ _ (by decide)

/-- C6: a webhook call whose credential header is not exactly the configured
secret is rejected as unauthorized and the store is returned untouched; the
result does not depend on the body (the guard runs before the body is
destructured), so no Job or Video record is mutated. -/
theorem webhook_badCredential (db : DbState) (secret : String)
    (hdr : Option String) (body : WebhookPayload) (now : Nat)
    (h : hdr ≠ some secret) :
    handleWebhook db secret hdr body now = (WebhookResult.unauthorized, db) := by
  simp [handleWebhook, h]

/-- String-literal append reassociation, used to exhibit the
"Max attempts exceeded" error text as a proper initial segment. -/
theorem maxAttempts_msg_split (e : String) :
    "Max attempts exceeded: " ++ e = "Max attempts exceeded" ++ (": " ++ e) := by
  cases e with
  | mk d => rfl

/-- C1: when a dispatch attempt fails for a pending job whose pre-increment
`attemptCount` is already ≥ 3, the failure handling of
`JobDispatcher.processJobs` leaves the stored job `failed` with a
`lastError` that begins with "Max attempts exceeded" (and an incremented
`attemptCount`), and marks the associated video `failed`. -/
theorem dispatchFailure_maxAttempts (db : DbState) (job : EncodingJob)
    (errMsg : String) (now : Nat) (hatt : 3 ≤ job.attemptCount)
    (hjob : getJob db job.owner job.permlink = some job)
    (v : VideoMetadata) (hvid : getVideo db job.permlink = some v) :
    ∃ j' v',
      getJob (handleDispatchFailure db job errMsg now) job.owner job.permlink = some j' ∧
      j'.status = JobStatus.failed ∧
      (∃ rest, j'.lastError = some ("Max attempts exceeded" ++ rest)) ∧
      j'.attemptCount = job.attemptCount + 1 ∧
      getVideo (handleDispatchFailure db job errMsg now) job.permlink = some v' ∧
      v'.status = VideoStatus.failed := by
  have hkey : handleDispatchFailure db job errMsg now =
      updateVideoStatus
        (updateJobStatus
          (updateJobStatus (incrementJobAttempt db job.owner job.permlink now)
            job.owner job.permlink JobStatus.pending
            (fun j => { j with lastError := some errMsg }) now)
          job.owner job.permlink JobStatus.failed
          (fun j => { j with lastError := some ("Max attempts exceeded: " ++ errMsg) }) now)
        job.permlink VideoStatus.failed (fun x => x) now := by
    unfold handleDispatchFailure
    simp only [if_pos hatt]
  rw [hkey, getJob_updateVideoStatus,
    getJob_updateJobStatus_self _ job.owner job.permlink JobStatus.failed
      (fun j => { j with lastError := some ("Max attempts exceeded: " ++ errMsg) }) now
      (fun j => ⟨rfl, rfl⟩),
    getJob_updateJobStatus_self _ job.owner job.permlink JobStatus.pending
      (fun j => { j with lastError := some errMsg }) now (fun j => ⟨rfl, rfl⟩),
    getJob_incrementJobAttempt_self, hjob,
    getVideo_updateVideoStatus_self _ job.permlink VideoStatus.failed (fun x => x) now
      (fun x => rfl),
    getVideo_updateJobStatus, getVideo_updateJobStatus,
    getVideo_incrementJobAttempt, hvid]
  simp only [Option.map_some']
  exact ⟨_, _, rfl, rfl, ⟨": " ++ errMsg, by rw [← maxAttempts_msg_split]⟩,
    rfl, rfl, rfl⟩

/-- Witness for C1 at a concrete store: one pending job with
`attemptCount = 3` and its video. -/
theorem dispatchFailure_maxAttempts_witness :
    ∃ j' v',
      getJob (handleDispatchFailure c1Db c1Job "boom" 7) "alice" "ab12cd34" = some j' ∧
      j'.status = JobStatus.failed ∧
      (∃ rest, j'.lastError = some ("Max attempts exceeded" ++ rest)) ∧
      j'.attemptCount = c1Job.attemptCount + 1 ∧
      getVideo (handleDispatchFailure c1Db c1Job "boom" 7) "ab12cd34" = some v' ∧
      v'.status = VideoStatus.failed :=
  dispatchFailure_maxAttempts c1Db c1Job "boom" 7 (by decide) (by decide) c1Video (by decide)

/-- C3: when a dispatch attempt fails for a job whose pre-increment
`attemptCount` is < 3, the failure handling leaves the stored job `pending`
with `attemptCount` incremented by one and `lastError` set to the failure
message, and the videos collection is untouched. -/
theorem dispatchFailure_belowBudget (db : DbState) (job : EncodingJob)
    (errMsg : String) (now : Nat) (hatt : job.attemptCount < 3)
    (hjob : getJob db job.owner job.permlink = some job) :
    ∃ j',
      getJob (handleDispatchFailure db job errMsg now) job.owner job.permlink = some j' ∧
      j'.status = JobStatus.pending ∧
      j'.attemptCount = job.attemptCount + 1 ∧
      j'.lastError = some errMsg ∧
      (handleDispatchFailure db job errMsg now).videos = db.videos := by
  have hkey : handleDispatchFailure db job errMsg now =
      updateJobStatus (incrementJobAttempt db job.owner job.permlink now)
        job.owner job.permlink JobStatus.pending
        (fun j => { j with lastError := some errMsg }) now := by
    unfold handleDispatchFailure
    simp only [if_neg (Nat.not_le.mpr hatt)]
  rw [hkey,
    getJob_updateJobStatus_self _ job.owner job.permlink JobStatus.pending
      (fun j => { j with lastError := some errMsg }) now (fun j => ⟨rfl, rfl⟩),
    getJob_incrementJobAttempt_self, hjob]
  simp only [Option.map_some']
  exact ⟨_, rfl, rfl, rfl, rfl, rfl⟩

/-- Witness for C3 at a concrete store: one pending job with
`attemptCount = 1`. -/
theorem dispatchFailure_belowBudget_witness :
    ∃ j',
      getJob (handleDispatchFailure c3Db c3Job "boom" 7) "alice" "ab12cd34" = some j' ∧
      j'.status = JobStatus.pending ∧
      j'.attemptCount = c3Job.attemptCount + 1 ∧
      j'.lastError = some "boom" ∧
      (handleDispatchFailure c3Db c3Job "boom" 7).videos = c3Db.videos :=
  dispatchFailure_belowBudget c3Db c3Job "boom" 7 (by decide) (by decide)

/-- Witness for C6: a concrete call with a wrong header is rejected. -/
theorem webhook_badCredential_witness :
    handleWebhook { videos := [], jobs := [] } "secret" (some "wrong")
      { owner := "alice", permlink := "ab12cd34", status := "complete",
        manifest_cid := some "Qm456", error := none } 3 =
      (WebhookResult.unauthorized, { videos := [], jobs := [] }) :=
  webhook_badCredential _ _ _ _ _ (by decide)

/-- With at least one enabled encoder, `getNextEncoder` reads the enabled
list at `cursor mod length` and returns the cursor advanced by one. -/
theorem getNextEncoder_ok (encoders : List EncoderConfig) (c : Nat)
    (hne : encoders.filter (fun e => e.enabled) ≠ []) :
    ∃ e,
      (encoders.filter (fun e => e.enabled))[c % (encoders.filter (fun e => e.enabled)).length]? = some e ∧
      getNextEncoder encoders c = Except.ok (e, c + 1) := by
  have hpos : 0 < (encoders.filter (fun e => e.enabled)).length :=
    List.length_pos.mpr hne
  have hlt : c % (encoders.filter (fun e => e.enabled)).length <
      (encoders.filter (fun e => e.enabled)).length := Nat.mod_lt _ hpos
  refine ⟨(encoders.filter (fun e => e.enabled)).get ⟨_, hlt⟩, ?_, ?_⟩
  · rw [List.getElem?_eq_getElem hlt]
    rfl
  · unfold getNextEncoder
    rw [dif_neg (Nat.pos_iff_ne_zero.mp hpos)]

/-- Selection made at dispatch index i of a run started at cursor c: the
enabled worker at index (c + i) mod N. -/
theorem runDispatches_nth (encoders : List EncoderConfig)
    (hne : encoders.filter (fun e => e.enabled) ≠ []) :
    ∀ (M c i : Nat), i < M →
      (runDispatches encoders c M).1[i]? =
        (encoders.filter (fun e => e.enabled))[(c + i) % (encoders.filter (fun e => e.enabled)).length]? := by
  intro M
  induction M with
  | zero => exact fun c i h => absurd h (Nat.not_lt_zero i)
  | succ n ih =>
    intro c i hi
    obtain ⟨e, he, hok⟩ := getNextEncoder_ok encoders c hne
    rw [runDispatches, hok]
    cases i with
    | zero =>
      rw [Nat.add_zero, List.getElem?_cons_zero]
      exact he.symm
    | succ j =>
      rw [List.getElem?_cons_succ, ih (c + 1) j (Nat.lt_of_succ_lt_succ hi)]
      congr 2
      omega

/-- C2: with N enabled workers and M consecutive dispatches starting from a
fresh dispatcher (cursor 0) and no reconfiguration, the worker selected at
dispatch index i (0-based) is `enabledWorkers[i mod N]`; and every single
selection reads `enabledWorkers[cursor mod N]` and advances the cursor by
exactly one. -/
theorem roundRobin_assignment (encoders : List EncoderConfig) (M i : Nat)
    (hne : encoders.filter (fun e => e.enabled) ≠ []) (hiM : i < M) :
    (runDispatches encoders 0 M).1[i]? =
      (encoders.filter (fun e => e.enabled))[i % (encoders.filter (fun e => e.enabled)).length]? ∧
    ∀ c, ∃ e,
      (encoders.filter (fun e => e.enabled))[c % (encoders.filter (fun e => e.enabled)).length]? = some e ∧
      getNextEncoder encoders c = Except.ok (e, c + 1) := by
  constructor
  · have h := runDispatches_nth encoders hne M 0 i hiM
    rwa [Nat.zero_add] at h
  · exact fun c => getNextEncoder_ok encoders c hne

/-- Witness for C2: dispatch index 2 of 3 on a two-enabled-worker rotation
wraps around to the first enabled worker. -/
theorem roundRobin_assignment_witness :
    (runDispatches c2Encoders 0 3).1[2]? =
      (c2Encoders.filter (fun e => e.enabled))[2 % (c2Encoders.filter (fun e => e.enabled)).length]? :=
  (roundRobin_assignment c2Encoders 3 2 (by decide) (by decide)).1

/-- C4: with an empty enabled-worker rotation, a dispatch attempt for a job
whose video exists and is pinned fails with the no-workers error (without
advancing the cursor), and this failure is handled under the ordinary
attempt budget: in the concrete scenario, a pending job polled with zero
enabled workers is still `pending` with attemptCount 3 after three polls,
and after the 4th poll the job is `failed` with a max-attempts `lastError`
naming the no-workers error, and the video is `failed`. -/
theorem noWorkers_failure (db : DbState) (cfg : DispatcherConfig) (cursor : Nat)
    (fetch : FetchOracle) (now : Nat) (owner permlink : String)
    (v : VideoMetadata) (cid : String)
    (hw : cfg.encoders.filter (fun e => e.enabled) = [])
    (hv : getVideo db permlink = some v) (hc : v.input_cid = some cid) :
    dispatchJob db cfg cursor fetch now owner permlink =
      (Except.error "No enabled encoders available", cursor) ∧
    (getJob c4AfterThree.1 "alice" "ab12cd34").map
        (fun j => (j.status, j.attemptCount)) = some (JobStatus.pending, 3) ∧
    (getJob c4After.1 "alice" "ab12cd34").map
        (fun j => (j.status, j.attemptCount, j.lastError)) =
      some (JobStatus.failed, 4,
        some "Max attempts exceeded: No enabled encoders available") ∧
    (getVideo c4After.1 "ab12cd34").map (fun x => x.status) =
      some VideoStatus.failed := by
  refine ⟨?_, by decide, by decide, by decide⟩
  simp [dispatchJob, hv, hc, getNextEncoder, hw]

/-- Witness for C4: the no-workers dispatch failure at the concrete C4
store. -/
theorem noWorkers_failure_witness :
    dispatchJob c4Db c4Cfg 0 c4Fetch 1 "alice" "ab12cd34" =
      (Except.error "No enabled encoders available", 0) :=
  (noWorkers_failure c4Db c4Cfg 0 c4Fetch 1 "alice" "ab12cd34" c1Video "Qm123"
    (by decide) (by decide) (by decide)).1

/-- C5: a correctly authenticated webhook report with status `complete` for
an existing (owner, permlink) sets the video to `published` with
`encodingProgress = 100` and the reported `manifest_cid`, and sets the job
to `completed` with `webhookReceivedAt` set to the current time. -/
theorem webhook_complete (db : DbState) (secret : String) (body : WebhookPayload)
    (now : Nat) (hstatus : body.status = "complete")
    (v : VideoMetadata) (hv : getVideo db body.permlink = some v)
    (j : EncodingJob) (hj : getJob db body.owner body.permlink = some j) :
    ∃ db',
      handleWebhook db secret (some secret) body now =
        (WebhookResult.processed "Webhook processed successfully", db') ∧
      getVideo db' body.permlink =
        some { v with status := VideoStatus.published, encodingProgress := 100,
                      manifest_cid := body.manifest_cid, updatedAt := now } ∧
      getJob db' body.owner body.permlink =
        some { j with status := JobStatus.completed,
                      webhookReceivedAt := some now, updatedAt := now } := by
  have hkey : handleWebhook db secret (some secret) body now =
      (WebhookResult.processed "Webhook processed successfully",
        updateJobStatus
          (updateVideoStatus db body.permlink VideoStatus.published
            (fun x => { x with manifest_cid := body.manifest_cid, encodingProgress := 100 }) now)
          body.owner body.permlink JobStatus.completed
          (fun x => { x with webhookReceivedAt := some now }) now) := by
    simp [handleWebhook, hstatus]
  refine ⟨_, hkey, ?_, ?_⟩
  · rw [getVideo_updateJobStatus,
      getVideo_updateVideoStatus_self _ body.permlink VideoStatus.published
        (fun x => { x with manifest_cid := body.manifest_cid, encodingProgress := 100 }) now
        (fun x => rfl), hv]
    rfl
  · rw [getJob_updateJobStatus_self _ body.owner body.permlink JobStatus.completed
        (fun x => { x with webhookReceivedAt := some now }) now (fun x => ⟨rfl, rfl⟩),
      getJob_updateVideoStatus, hj]
    rfl

/-- Witness for C5 at a concrete store: a pinned `processing` video and an
`encoding` job receive a `complete` report. -/
theorem webhook_complete_witness :
    ∃ db',
      handleWebhook c5Db "s" (some "s") c5Body 9 =
        (WebhookResult.processed "Webhook processed successfully", db') ∧
      getVideo db' "ab12cd34" =
        some { c1Video with status := VideoStatus.published, encodingProgress := 100,
                            manifest_cid := some "Qm456", updatedAt := 9 } ∧
      getJob db' "alice" "ab12cd34" =
        some { c5Job with status := JobStatus.completed,
                          webhookReceivedAt := some 9, updatedAt := 9 } :=
  webhook_complete c5Db "s" c5Body 9 (by decide) c1Video (by decide) c5Job (by decide)

/-- Counterexample for C7: `markProcessing` (the `updateVideoStatus` call in
`onUploadFinish`) does not require the current status to be `uploading` —
it transitions a `published` video to `processing` — and on a missing
permlink it completes without any error as a no-op instead of failing with
NotFound. -/
theorem markProcessing_guard_counterexample :
    c7Video.status = VideoStatus.published ∧
    getVideo c7Db "p7" = some c7Video ∧
    (getVideo (markProcessing c7Db "p7" (some 5) "QmX" 7) "p7").map (fun x => x.status) =
      some VideoStatus.processing ∧
    markProcessing { videos := [], jobs := [] } "p7" (some 5) "QmX" 7 =
      { videos := [], jobs := [] } := by decide

/-- C7 (amended): `markProcessing(permlink, input_cid)` unconditionally sets
status=`processing`, `input_cid`, `size` and `encodingProgress = 0` on the
stored video regardless of its current status, and when no video with that
permlink exists it completes without error as a no-op. -/
theorem markProcessing_unconditional (db : DbState) (p : String)
    (sz : Option Nat) (cid : String) (now : Nat) :
    (∀ v, getVideo db p = some v →
      getVideo (markProcessing db p sz cid now) p =
        some { v with status := VideoStatus.processing, size := sz,
                      input_cid := some cid, encodingProgress := 0, updatedAt := now }) ∧
    (getVideo db p = none → markProcessing db p sz cid now = db) := by
  constructor
  · intro v hv
    unfold markProcessing
    rw [getVideo_updateVideoStatus_self _ p VideoStatus.processing
        (fun x => { x with size := sz, input_cid := some cid, encodingProgress := 0 }) now
        (fun x => rfl), hv]
    rfl
  · intro h
    unfold markProcessing updateVideoStatus
    rw [updateFirst_of_find?_none _ _ db.videos h]

/-- Witness for C7 (amended): the `published` video of the counterexample
store is overwritten to `processing`. -/
theorem markProcessing_unconditional_witness :
    getVideo (markProcessing c7Db "p7" (some 5) "QmX" 7) "p7" =
      some { c7Video with status := VideoStatus.processing, size := some 5,
                          input_cid := some "QmX", encodingProgress := 0, updatedAt := 7 } :=
  (markProcessing_unconditional c7Db "p7" (some 5) "QmX" 7).1 c7Video (by decide)

/-- C8: `markFailed` is idempotent. A first call leaves the stored video
`failed` with `encodingProgress = 0`; a second call on the same permlink
cannot error (the operation is total), re-establishes the same state, and
changes nothing beyond refreshing `updatedAt`: it equals a single call at
the later time, and its videos collection is the first call's collection
with only `updatedAt` rewritten on the matching record. -/
theorem markFailed_idempotent (db : DbState) (p : String) (t1 t2 : Nat)
    (v : VideoMetadata) (hv : getVideo db p = some v) :
    getVideo (markFailed (markFailed db p t1) p t2) p =
      some { v with status := VideoStatus.failed, encodingProgress := 0, updatedAt := t2 } ∧
    markFailed (markFailed db p t1) p t2 = markFailed db p t2 ∧
    (markFailed (markFailed db p t1) p t2).videos =
      updateFirst (fun x => x.permlink == p) (fun x => { x with updatedAt := t2 })
        (markFailed db p t1).videos := by
  have hfun : updateFirst (fun x => x.permlink == p)
      (fun x => { x with status := VideoStatus.failed, updatedAt := t2, encodingProgress := 0 })
      (updateFirst (fun x => x.permlink == p)
        (fun x => { x with status := VideoStatus.failed, updatedAt := t1, encodingProgress := 0 })
        db.videos) =
      updateFirst (fun x => x.permlink == p)
        (fun x => { x with status := VideoStatus.failed, updatedAt := t2, encodingProgress := 0 })
        db.videos := by
    rw [updateFirst_updateFirst (fun x => x.permlink == p)
      (fun x => { x with status := VideoStatus.failed, updatedAt := t1, encodingProgress := 0 })
      (fun x => { x with status := VideoStatus.failed, updatedAt := t2, encodingProgress := 0 })
      (fun x hx => hx) db.videos]
  have hfun2 : updateFirst (fun x => x.permlink == p) (fun x => { x with updatedAt := t2 })
      (updateFirst (fun x => x.permlink == p)
        (fun x => { x with status := VideoStatus.failed, updatedAt := t1, encodingProgress := 0 })
        db.videos) =
      updateFirst (fun x => x.permlink == p)
        (fun x => { x with status := VideoStatus.failed, updatedAt := t2, encodingProgress := 0 })
        db.videos := by
    rw [updateFirst_updateFirst (fun x => x.permlink == p)
      (fun x => { x with status := VideoStatus.failed, updatedAt := t1, encodingProgress := 0 })
      (fun x => { x with updatedAt := t2 })
      (fun x hx => hx) db.videos]
  have hcomp : markFailed (markFailed db p t1) p t2 = markFailed db p t2 := by
    unfold markFailed updateVideoStatus
    exact congrArg (fun l => DbState.mk l db.jobs) hfun
  have honly : (markFailed (markFailed db p t1) p t2).videos =
      updateFirst (fun x => x.permlink == p) (fun x => { x with updatedAt := t2 })
        (markFailed db p t1).videos := by
    rw [hcomp]
    exact hfun2.symm
  refine ⟨?_, hcomp, honly⟩
  rw [hcomp]
  unfold markFailed
  rw [getVideo_updateVideoStatus_self _ p VideoStatus.failed
      (fun x => { x with encodingProgress := 0 }) t2 (fun x => rfl), hv]
  rfl

/-- Witness for C8: two `markFailed` calls on the concrete store. -/
theorem markFailed_idempotent_witness :
    getVideo (markFailed (markFailed c1Db "ab12cd34" 5) "ab12cd34" 9) "ab12cd34" =
      some { c1Video with status := VideoStatus.failed, encodingProgress := 0,
                          updatedAt := 9 } ∧
    markFailed (markFailed c1Db "ab12cd34" 5) "ab12cd34" 9 = markFailed c1Db "ab12cd34" 9 ∧
    (markFailed (markFailed c1Db "ab12cd34" 5) "ab12cd34" 9).videos =
      updateFirst (fun x => x.permlink == "ab12cd34") (fun x => { x with updatedAt := 9 })
        (markFailed c1Db "ab12cd34" 5).videos :=
  markFailed_idempotent c1Db "ab12cd34" 5 9 c1Video (by decide)

/-- Counterexample for C9: the thumbnail endpoint applies the update to a
video in status `deleted` — the video's thumbnail changes and the call
succeeds, contradicting "for a video in status `deleted` the update is not
applied". -/
theorem thumbnail_deleted_counterexample :
    c9Video.status = VideoStatus.deleted ∧
    c9Video.thumbnail_url = none ∧
    (handleThumbnailUpdate c9Db "p9" (some "http://t.png") 5).1 =
      ThumbnailResult.success "http://t.png" ∧
    (getVideo (handleThumbnailUpdate c9Db "p9" (some "http://t.png") 5).2 "p9").map
        (fun x => x.thumbnail_url) = some (some "http://t.png") := by decide

/-- C9 (amended): `setThumbnail` updates only the video's thumbnail — the
status is rewritten to its current value and `updatedAt` refreshed, all
other fields and the jobs collection untouched — and it is applied for a
video in ANY status, `deleted` included; only a missing video (404) or a
falsy `thumbnail_url` is rejected. -/
theorem thumbnail_update_behaviour (db : DbState) (p url : String) (now : Nat)
    (hurl : url ≠ "") (v : VideoMetadata) (hv : getVideo db p = some v) :
    handleThumbnailUpdate db p (some url) now =
      (ThumbnailResult.success url,
        updateVideoStatus db p v.status
          (fun x => { x with thumbnail_url := some url }) now) ∧
    getVideo (handleThumbnailUpdate db p (some url) now).2 p =
      some { v with thumbnail_url := some url, updatedAt := now } ∧
    (handleThumbnailUpdate db p (some url) now).2.jobs = db.jobs := by
  have h1 : handleThumbnailUpdate db p (some url) now =
      (ThumbnailResult.success url,
        updateVideoStatus db p v.status
          (fun x => { x with thumbnail_url := some url }) now) := by
    simp [handleThumbnailUpdate, hv, hurl]
  refine ⟨h1, ?_, ?_⟩
  · rw [h1]
    rw [getVideo_updateVideoStatus_self _ p v.status
        (fun x => { x with thumbnail_url := some url }) now (fun x => rfl), hv]
    rfl
  · rw [h1]
    rfl

/-- Witness for C9 (amended): the thumbnail of the `deleted` video is set
while its status stays `deleted` and the jobs collection stays empty. -/
theorem thumbnail_update_behaviour_witness :
    handleThumbnailUpdate c9Db "p9" (some "http://t.png") 5 =
      (ThumbnailResult.success "http://t.png",
        updateVideoStatus c9Db "p9" c9Video.status
          (fun x => { x with thumbnail_url := some "http://t.png" }) 5) ∧
    getVideo (handleThumbnailUpdate c9Db "p9" (some "http://t.png") 5).2 "p9" =
      some { c9Video with thumbnail_url := some "http://t.png", updatedAt := 5 } ∧
    (handleThumbnailUpdate c9Db "p9" (some "http://t.png") 5).2.jobs = c9Db.jobs :=
  thumbnail_update_behaviour c9Db "p9" "http://t.png" 5 (by decide) c9Video (by decide)

end EmbedVideos
